import Mathlib

/-!
Verification of the Dell EMC storage backend drivers (XtremIO REST client in
`cinder/volume/drivers/dell_emc/xtremio.py` and the Unity SDK client in
`cinder/volume/drivers/dell_emc/unity/client.py`) against their
natural-language specification.

The Python code is shallowly embedded: each Python function relevant to a
claim is translated into an executable Lean definition.  HTTP responses are
modelled as records carrying the status code, the optional `message` field of
the parsed JSON body, the raw response text, and the parsed payload.  Raised
Python exceptions are modelled as values of an inductive error type, and a
function that can raise returns `Except`.
-/

namespace DellEmc

/-! ## String helpers (kernel-computable models of Python string operations) -/

/-- Model of the Python test `s.endswith(suf)`. -/
def pyEndsWith (s suf : String) : Bool :=
  suf.toList.reverse.isPrefixOf s.toList.reverse

/-- Helper for `pyIn`: does `p` occur as a contiguous block of `l`? -/
def hasInfixAux (p : List Char) : List Char → Bool
  | [] => p.isEmpty
  | c :: rest => p.isPrefixOf (c :: rest) || hasInfixAux p rest

/-- Model of the Python test `sub in s` on strings (substring containment). -/
def pyIn (sub s : String) : Bool := hasInfixAux sub.toList s.toList

/-- Splits a character list at every occurrence of the separator character;
model of Python `s.split(sep)` for a one-character separator. -/
def listSplit (sep : Char) : List Char → List (List Char)
  | [] => [[]]
  | c :: rest =>
    let r := listSplit sep rest
    if c = sep then [] :: r
    else
      match r with
      | [] => [[c]]
      | g :: gs => (c :: g) :: gs

/-- Model of Python `int(s)` on decimal digit strings: `none` models the
`ValueError` raised on a string that is not a plain decimal numeral. -/
def pyInt? (l : List Char) : Option Nat :=
  if l.isEmpty then none
  else l.foldlM (fun acc c => if c.isDigit then some (acc * 10 + (c.toNat - 48)) else none) 0

/-! ## Error-token constants, from `xtremio.py` lines 76-82 -/

def OBJ_NOT_FOUND_ERR : String := "obj_not_found"

def VOL_NOT_UNIQUE_ERR : String := "vol_obj_name_not_unique"

def VOL_OBJ_NOT_FOUND_ERR : String := "vol_obj_not_found"

def ALREADY_MAPPED_ERR : String := "already_mapped"

def SYSTEM_BUSY : String := "system_is_busy"

def TOO_MANY_OBJECTS : String := "too_many_objs"

def TOO_MANY_SNAPSHOTS_PER_VOL : String := "too_many_snapshots_per_vol"

/-! ## Configuration defaults, from `XTREMIO_OPTS` (`xtremio.py` lines 59-71) -/

/-- Default of the option `xtremio_array_busy_retry_count`. -/
def xtremio_array_busy_retry_count : Nat := 5

/-- Default of the option `xtremio_array_busy_retry_interval`. -/
def xtremio_array_busy_retry_interval : Nat := 5

/-! ## Exceptions and responses -/

/-- The exceptions that the embedded code can raise.  The first six model the
`cinder.exception` classes raised by the driver; `pyError` models a raw Python
runtime error (for instance the `AttributeError` raised by calling a method of
`None`), which is not a member of the driver error taxonomy. -/
inductive Err where
  | notFound
  | volumeNotFound (key : Option String)
  | volumeBackendAPIException (msg : String)
  | xtremIOAlreadyMappedError
  | xtremIOArrayBusy
  | xtremIOSnapshotsLimitExceeded
  | volumeDriverException (msg : String)
  | pyError (kind : String)
deriving DecidableEq, Repr

/-- In `cinder.exception`, `VolumeNotFound` is a subclass of `NotFound`, so an
`except exception.NotFound` clause catches both. -/
def Err.isNotFoundClass : Err → Bool
  | .notFound => true
  | .volumeNotFound _ => true
  | _ => false

def Err.isVolumeBackendAPIException : Err → Bool
  | .volumeBackendAPIException _ => true
  | _ => false

/-- An HTTP response from the XMS array, as seen by `XtremIOClient.req`:
the status code, the `message` field of the JSON body when the body is a JSON
object carrying one, the raw response text, and the parsed body returned to
callers on success. -/
structure Response where
  status : Nat
  message : Option String
  text : String
  payload : String
deriving DecidableEq, Repr

inductive Method where
  | GET
  | POST
  | PUT
  | DELETE
deriving DecidableEq, Repr

/-- The value returned by `XtremIOClient.req` on a successful response:
`response.json()` for GET and POST, and the empty string otherwise
(`xtremio.py` lines 145-149). -/
inductive RetVal where
  | json (body : String)
  | emptyStr
deriving DecidableEq, Repr

/-! ## `XtremIOClient.handle_errors` (`xtremio.py` lines 153-180) -/

/-- The if/elif chain of `XtremIOClient.handle_errors` over the body message
of a 400 response (`xtremio.py` lines 157-177): the exception raised for the
recognized vendor token, falling through to the `Bad response` backend error
(lines 178-180) when no token matches. -/
def classify_message (err_msg : String) (key : Option String) (text : String) : Err :=
  if pyEndsWith err_msg OBJ_NOT_FOUND_ERR then .notFound
  else if err_msg = VOL_NOT_UNIQUE_ERR then
    .volumeBackendAPIException "Volume by this name already exists"
  else if err_msg = VOL_OBJ_NOT_FOUND_ERR then .volumeNotFound key
  else if pyIn ALREADY_MAPPED_ERR err_msg then .xtremIOAlreadyMappedError
  else if err_msg = SYSTEM_BUSY then .xtremIOArrayBusy
  else if err_msg = TOO_MANY_OBJECTS ∨ err_msg = TOO_MANY_SNAPSHOTS_PER_VOL then
    .xtremIOSnapshotsLimitExceeded
  else .volumeBackendAPIException ("Bad response from XMS, " ++ text)

/-- Embedding of `XtremIOClient.handle_errors`.  The result is the exception
the method raises (it raises on every path).  A 400 response whose body has no
`message` field makes the Python code call `None.endswith`, an
`AttributeError`, modelled by `Err.pyError "AttributeError"`. -/
def handle_errors (response : Response) (key : Option String) : Err :=
  if response.status = 400 then
    match response.message with
    | none => .pyError "AttributeError"
    | some err_msg => classify_message err_msg key response.text
  else .volumeBackendAPIException ("Bad response from XMS, " ++ response.text)

/-! ## `XtremIOClient.req`: response handling (`xtremio.py` lines 145-151) -/

/-- One dispatch of `XtremIOClient.req` after the HTTP round trip: given the
verb and the response, either the returned value, or the exception raised via
`handle_errors`.  The second component records whether `handle_errors` was
invoked. -/
def req_step (method : Method) (response : Response) (key : Option String) :
    Except Err RetVal × Bool :=
  if 200 ≤ response.status ∧ response.status < 300 then
    (if method = .GET ∨ method = .POST then .ok (.json response.payload) else .ok .emptyStr,
     false)
  else (.error (handle_errors response key), true)

/-- The result of one un-retried `req` call on a given response. -/
def req_result (method : Method) (response : Response) : Except Err RetVal :=
  (req_step method response none).1

/-! ## `XtremIOClient.req`: request construction (`xtremio.py` lines 110-127) -/

/-- Python truthiness of the `name` argument (`None` and the empty string are
falsy). -/
def truthyName : Option String → Bool
  | none => false
  | some s => s ≠ ""

/-- Python truthiness of the `idx` argument (`None` and `0` are falsy). -/
def truthyIdx : Option Int → Bool
  | none => false
  | some i => i ≠ 0

/-- The identifying parts of a dispatched request: the index appended to the
URL path, the `name` query parameter, and the `key` local used for error
reporting. -/
structure BuiltRequest where
  pathIdx : Option Int
  nameParam : Option String
  key : Option String
deriving DecidableEq, Repr

/-- Embedding of the identifier handling at the start of `XtremIOClient.req`,
before the network call: `if name and idx` raises `VolumeDriverException`;
`if name` puts the name into the query parameters; `elif idx` appends the
index to the URL. -/
def build_request (name : Option String) (idx : Option Int) : Except Err BuiltRequest :=
  if truthyName name && truthyIdx idx then
    .error (.volumeDriverException "cannot handle both name and index in req")
  else if truthyName name then .ok ⟨none, name, name⟩
  else if truthyIdx idx then .ok ⟨idx, none, idx.map toString⟩
  else .ok ⟨none, none, none⟩

/-- A full `req` call on one response: request construction followed by the
dispatch of the response.  When construction raises, the response is never
consulted (no network call is made). -/
def req_full (name : Option String) (idx : Option Int) (method : Method)
    (response : Response) : Except Err RetVal :=
  match build_request name idx with
  | .error e => .error e
  | .ok br => (req_step method response br.key).1

/-! ## The retry decorator on `req` (`xtremio.py` lines 107-109)

`cinder.utils.retry` itself is not part of this repository snapshot. -/

/-- Modelled from the spec: `cinder.utils.retry`, applied to `req` at
`xtremio.py` lines 107-109, is not under `src/`.  Per the spec's Retrying
Request Executor, on `XtremIOArrayBusy` the call sleeps for a fixed interval
and is re-issued, up to `attemptsLeft` total attempts; exhaustion surfaces
`XtremIOArrayBusy`; every other error propagates at once.  Successive attempt
outcomes (each the classified result of one dispatched request) are supplied
as a list, one per attempt; the result carries the number of attempts issued
and the total time slept.  The empty-list case is an artifact of the finite
modelling and is never reached when enough outcomes are supplied. -/
def retry_exec (interval : Nat) : List (Except Err RetVal) → Nat → Except Err RetVal × Nat × Nat
  | [], _ => (.error (.volumeDriverException "transport"), 0, 0)
  | o :: rest, attemptsLeft =>
    match o with
    | .ok v => (.ok v, 1, 0)
    | .error e =>
      if e = .xtremIOArrayBusy then
        match attemptsLeft with
        | n + 2 =>
          let res := retry_exec interval rest (n + 1)
          (res.1, res.2.1 + 1, res.2.2 + interval)
        | _ => (.error .xtremIOArrayBusy, 1, 0)
      else (.error e, 1, 0)

/-- `req` as decorated in the source: each attempt dispatches the request and
classifies the array's response via `req_result`; the executor is
instantiated with the configured defaults (5 attempts, interval 5). -/
def req_retried (responses : List Response) (method : Method) : Except Err RetVal × Nat × Nat :=
  retry_exec xtremio_array_busy_retry_interval (responses.map (req_result method))
    xtremio_array_busy_retry_count

/-! ## `XtremIOClient4.create_snapshot` (`xtremio.py` lines 326-343) -/

/-- The requests `XtremIOClient4.create_snapshot` can issue, in order: the
POST creating the anonymous snapshot set, the PUT renaming it to `dest`, and
the compensating DELETE of the created set. -/
inductive SnapAction where
  | postSnap (dest : String)
  | putRename (newName : String)
  | deleteSnap
deriving DecidableEq, Repr

/-- Embedding of `XtremIOClient4.create_snapshot`.  The three `Response`
arguments are the array's answers to the POST, the rename PUT, and the
compensating DELETE (the latter two consulted only when reached).  Returns the
call outcome together with the ordered list of requests issued.  Per the
source, only `VolumeBackendAPIException` from the rename triggers the
compensating DELETE before the original error is re-raised; an exception
raised by the DELETE itself replaces the original one. -/
def create_snapshot4 (dest : String) (postResp putResp delResp : Response) :
    Except Err Unit × List SnapAction :=
  match req_result .POST postResp with
  | .error e => (.error e, [.postSnap dest])
  | .ok _ =>
    match req_result .PUT putResp with
    | .ok _ => (.ok (), [.postSnap dest, .putRename dest])
    | .error e =>
      if e.isVolumeBackendAPIException then
        match req_result .DELETE delResp with
        | .ok _ => (.error e, [.postSnap dest, .putRename dest, .deleteSnap])
        | .error e2 => (.error e2, [.postSnap dest, .putRename dest, .deleteSnap])
      else (.error e, [.postSnap dest, .putRename dest])

/-! ## `XtremIOVolumeDriver.create_volume` (`xtremio.py` lines 410-419) -/

/-- Embedding of `XtremIOVolumeDriver.create_volume`: a POST of the new volume
and, when the volume belongs to a consistency group, a second request adding
it to the group.  There is no fallback of any kind around the POST: whatever
`req` raises propagates to the caller. -/
def create_volume (cgId : Option String) (postResp cgResp : Response) : Except Err Unit :=
  match req_result .POST postResp with
  | .error e => .error e
  | .ok _ =>
    match cgId with
    | none => .ok ()
    | some _ =>
      match req_result .POST cgResp with
      | .error e => .error e
      | .ok _ => .ok ()

/-! ## `XtremIOVolumeDriver.delete_volume` / `delete_snapshot`
(`xtremio.py` lines 457-462 and 468-473) -/

/-- The array state visible to the delete operations: the set of existing
volume names (snapshots are also volumes on XtremIO).  Names are unique keys
on the array. -/
structure XmsState where
  vols : List String
deriving DecidableEq, Repr

/-- The array's answer to `DELETE /volumes?name=...`: success when the name
exists (removing it), otherwise a 400 whose body message ends with the
`obj_not_found` vendor token. -/
def xms_delete (st : XmsState) (name : String) : Response × XmsState :=
  if name ∈ st.vols then
    ({ status := 200, message := none, text := "", payload := "" },
     ⟨st.vols.filter (fun v => v ≠ name)⟩)
  else
    ({ status := 400, message := some OBJ_NOT_FOUND_ERR, text := "obj_not_found", payload := "" },
     st)

/-- Embedding of `XtremIOVolumeDriver.delete_volume`: issue the DELETE and
absorb `exception.NotFound` (logging only), letting anything else propagate. -/
def delete_volume (st : XmsState) (name : String) : Except Err Unit × XmsState :=
  let (resp, st1) := xms_delete st name
  match req_result .DELETE resp with
  | .ok _ => (.ok (), st1)
  | .error e => if e.isNotFoundClass then (.ok (), st1) else (.error e, st1)

/-- Embedding of `XtremIOVolumeDriver.delete_snapshot`, whose body is the same
try/except around a DELETE by name (snapshots are volumes on the array). -/
def delete_snapshot (st : XmsState) (snapshotId : String) : Except Err Unit × XmsState :=
  let (resp, st1) := xms_delete st snapshotId
  match req_result .DELETE resp with
  | .ok _ => (.ok (), st1)
  | .error e => if e.isNotFoundClass then (.ok (), st1) else (.error e, st1)

/-! ## `XtremIOFCDriver._get_free_lun` (`xtremio.py` lines 978-988) -/

/-- Python `min` over a nonempty collection, as a fold. -/
def pyMin : List Nat → Option Nat
  | [] => none
  | x :: xs => some (xs.foldl min x)

/-- The `luns` list gathered by `_get_free_lun`: the lun numbers of every
lun-map of every given initiator group. -/
def gatherLuns (igLuns : List (List Nat)) : List Nat :=
  igLuns.foldl (fun acc l => acc ++ l) []

/-- Embedding of `XtremIOFCDriver._get_free_lun`.  `igLuns` holds, per given
initiator group, the lun numbers of its existing lun-maps.
`uniq_luns = set(luns + [0])`, `seq = range(len(uniq_luns) + 1)`, and the
result is `min(set(seq) - uniq_luns)`.  The `getD` default is never reached:
the filtered list is provably nonempty. -/
def _get_free_lun (igLuns : List (List Nat)) : Nat :=
  let luns := gatherLuns igLuns
  let uniq_luns := (luns ++ [0]).dedup
  let seq := List.range (uniq_luns.length + 1)
  (pyMin (seq.filter (fun n => decide (n ∉ uniq_luns)))).getD 0

/-! ## `XtremIOVolumeDriver.check_for_setup_error` (`xtremio.py` lines 388-408) -/

/-- The two client variants: `XtremIOClient3` (v1 URLs) and `XtremIOClient4`
(v2 URLs with cluster scoping). -/
inductive ClientKind where
  | client3
  | client4
deriving DecidableEq, Repr

def MIN_XMS_VERSION : List Nat := [3, 0, 0]

/-- Embedding of `[int(n) for n in version_text.split('-')[0].split('.')]`;
`none` models the `ValueError` of `int` on a non-numeral component. -/
def parse_version (version_text : String) : Option (List Nat) :=
  ((listSplit '-' version_text.toList).headD []
    |> listSplit '.').mapM pyInt?

/-- Python list comparison `<` on integer lists (lexicographic, a strict
proper prefix is smaller). -/
def pyListLt : List Nat → List Nat → Bool
  | [], [] => false
  | [], _ :: _ => true
  | _ :: _, [] => false
  | a :: as, b :: bs => if a < b then true else if b < a then false else pyListLt as bs

/-- The version comparison and dispatch of
`XtremIOVolumeDriver.check_for_setup_error` (lines 398-408): raise
`VolumeBackendAPIException` when the parsed version compares below
`MIN_XMS_VERSION`, select `XtremIOClient4` when the major version is at least
4, and otherwise keep the `XtremIOClient3` set by the constructor. -/
def select_client (ver : List Nat) : Except Err ClientKind :=
  if pyListLt ver MIN_XMS_VERSION then
    .error (.volumeBackendAPIException "Invalid XtremIO version")
  else if 4 ≤ ver.headD 0 then .ok .client4
  else .ok .client3

/-- Embedding of the version dispatch in
`XtremIOVolumeDriver.check_for_setup_error`: parse the cluster's
`sys-sw-version` and dispatch on the parsed value. -/
def check_for_setup_error (version_text : String) : Except Err ClientKind :=
  match parse_version version_text with
  | none => .error (.pyError "ValueError")
  | some ver => select_client ver

/-- The driver operations a session can invoke after setup.  None of their
bodies assigns `self.client`: the only assignments in the source are in
`__init__` (line 382) and `check_for_setup_error` (line 408). -/
inductive DriverOp where
  | createVolumeOp
  | deleteVolumeOp
  | createSnapshotOp
  | deleteSnapshotOp
  | extendVolumeOp
  | initializeConnectionOp
  | terminateConnectionOp
deriving DecidableEq, Repr

/-- The selected client variant after one driver operation: unchanged, since
no operation assigns `self.client`. -/
def op_client_after (c : ClientKind) (_op : DriverOp) : ClientKind := c

/-- The selected client variant after a whole session of operations. -/
def run_session (c : ClientKind) (ops : List DriverOp) : ClientKind :=
  ops.foldl op_client_after c

/-! ## The Unity client (`cinder/volume/drivers/dell_emc/unity/client.py`)

The `storops` SDK calls are modelled as operations on an explicit array state;
the exceptions the client catches are the constructors of `StoropsErr`. -/

/-- The `storops` exceptions caught in `client.py`, plus `pyError` for a raw
Python runtime error and `other` for any uncaught SDK failure. -/
inductive StoropsErr where
  | lunNameInUse
  | snapNameInUse
  | resourceNotFound
  | deleteAttachedSnap
  | pyError (kind : String)
  | other (msg : String)
deriving DecidableEq, Repr

/-- Lookup in an association list of names to numeric identities. -/
def assocFind (key : String) : List (String × Nat) → Option Nat
  | [] => none
  | (k, v) :: rest => if k = key then some v else assocFind key rest

/-- The Unity array state: luns and snapshots keyed by name, each carrying its
array-side identity, plus the next fresh identity. -/
structure UnityState where
  luns : List (String × Nat)
  snaps : List (String × Nat)
  nextId : Nat
deriving DecidableEq, Repr

/-- The `storops` call `pool.create_lun(lun_name=name, ...)`: creates a fresh
lun under the name, or raises `UnityLunNameInUseError` when the name is
taken. -/
def pool_create_lun (st : UnityState) (name : String) : Except StoropsErr (UnityState × Nat) :=
  match assocFind name st.luns with
  | some _ => .error .lunNameInUse
  | none =>
    .ok ({ st with luns := (name, st.nextId) :: st.luns, nextId := st.nextId + 1 }, st.nextId)

/-- The `storops` call `system.get_lun(name=name)`: the lun's identity, or
`UnityResourceNotFoundError` when no lun has the name. -/
def system_get_lun_by_name (st : UnityState) (name : String) : Except StoropsErr Nat :=
  match assocFind name st.luns with
  | some i => .ok i
  | none => .error .resourceNotFound

/-- Embedding of `UnityClient.create_lun` (`client.py` lines 58-77): try the
pool create and, on `UnityLunNameInUseError`, return the existing lun fetched
by name instead. -/
def unity_create_lun (st : UnityState) (name : String) : Except StoropsErr (UnityState × Nat) :=
  match pool_create_lun st name with
  | .ok r => .ok r
  | .error .lunNameInUse =>
    match system_get_lun_by_name st name with
    | .ok i => .ok (st, i)
    | .error e => .error e
  | .error e => .error e

/-- Does a lun with the given array-side identity exist? -/
def lunIdExists (st : UnityState) (lunId : Nat) : Bool :=
  st.luns.any (fun p => p.2 = lunId)

/-- The `storops` call `lun.create_snap(name, is_auto_delete=False)`: creates
a fresh snapshot under the name, or raises `UnitySnapNameInUseError` when the
name is taken. -/
def lun_create_snap (st : UnityState) (name : String) : Except StoropsErr (UnityState × Nat) :=
  match assocFind name st.snaps with
  | some _ => .error .snapNameInUse
  | none =>
    .ok ({ st with snaps := (name, st.nextId) :: st.snaps, nextId := st.nextId + 1 }, st.nextId)

/-- Embedding of `UnityClient.get_snap` (`client.py` lines 166-172): the snap
by name, with `UnityResourceNotFoundError` caught and turned into `None`. -/
def unity_get_snap (st : UnityState) (name : String) : Option Nat :=
  assocFind name st.snaps

/-- Embedding of `UnityClient.create_snap` (`client.py` lines 127-145):
`get_lun` the source (a `None` source makes `lun.create_snap` raise
`AttributeError`), try the snap create, and on `UnitySnapNameInUseError`
return `get_snap(name)` instead. -/
def unity_create_snap (st : UnityState) (srcLunId : Nat) (name : String) :
    Except StoropsErr (UnityState × Option Nat) :=
  if lunIdExists st srcLunId then
    match lun_create_snap st name with
    | .ok (st1, i) => .ok (st1, some i)
    | .error .snapNameInUse => .ok (st, unity_get_snap st name)
    | .error e => .error e
  else .error (.pyError "AttributeError")

/-- The `storops` call `system.get_lun(_id=lun_id)` followed by
`lun.delete()`: removes the lun, raising `UnityResourceNotFoundError` when it
does not exist. -/
def lun_delete (st : UnityState) (lunId : Nat) : Except StoropsErr UnityState :=
  if lunIdExists st lunId then .ok { st with luns := st.luns.filter (fun p => p.2 ≠ lunId) }
  else .error .resourceNotFound

/-- Embedding of `UnityClient.delete_lun` (`client.py` lines 79-89): the get
and delete run in one `try` whose `except` absorbs
`UnityResourceNotFoundError` (logging only); everything else propagates. -/
def unity_delete_lun (st : UnityState) (lunId : Nat) : Except StoropsErr UnityState :=
  match lun_delete st lunId with
  | .ok st1 => .ok st1
  | .error .resourceNotFound => .ok st
  | .error e => .error e

/-- Embedding of `UnityClient.delete_snap` (`client.py` lines 147-164).  The
snap argument is the optional snap object (`none` models `None`); the second
argument is the outcome the array gives `snap.delete()` when it is called.
Returns the call outcome and whether the array was contacted at all.
`UnityResourceNotFoundError` is absorbed; `UnityDeleteAttachedSnapError` is
logged and re-raised; everything else propagates. -/
def unity_delete_snap (snap : Option Nat) (deleteOutcome : Except StoropsErr Unit) :
    Except StoropsErr Unit × Bool :=
  match snap with
  | none => (.ok (), false)
  | some _ =>
    match deleteOutcome with
    | .ok _ => (.ok (), true)
    | .error .resourceNotFound => (.ok (), true)
    | .error .deleteAttachedSnap => (.error .deleteAttachedSnap, true)
    | .error e => (.error e, true)

deriving instance DecidableEq for Except

/-- The members of the specification error taxonomy produced by the
classifier (`NotFound`, `DuplicateName`, `AlreadyAttached`, `ArrayBusy`,
`ResourceLimitExceeded`, `Unknown`); a raw Python runtime error or a
`VolumeDriverException` is outside it. -/
def inTaxonomy : Err → Bool
  | .pyError _ => false
  | .volumeDriverException _ => false
  | _ => true

/-- Does a built request carry any resource identifier at all? -/
def usesIdentifier (br : BuiltRequest) : Bool := br.nameParam.isSome || br.pathIdx.isSome

/-- Does a built request carry both identifiers? -/
def usesBoth (br : BuiltRequest) : Bool := br.nameParam.isSome && br.pathIdx.isSome

/-! # Theorems -/

/-- C10: `UnityClient.delete_snap` returns immediately without contacting the
array when the snap argument is `None`; an array report that the snapshot is
not found is absorbed into success; an array report that the snapshot is
attached (in use) is re-raised to the caller after logging. -/
theorem c10_delete_snap_policy (s : Nat) (outcome : Except StoropsErr Unit) :
    unity_delete_snap none outcome = (.ok (), false) ∧
    unity_delete_snap (some s) (.error .resourceNotFound) = (.ok (), true) ∧
    unity_delete_snap (some s) (.error .deleteAttachedSnap) =
      (.error .deleteAttachedSnap, true) :=
  ⟨rfl, rfl, rfl⟩

/-- C9 counterexample: for a PUT with a 2xx response, `XtremIOClient.req`
returns the empty string, not the parsed response body, so the body is not
returned unchanged in structure for every HTTP verb. -/
theorem c9_counterexample :
    (req_step .PUT { status := 200, message := none, text := "", payload := "body" } none).1
        = .ok .emptyStr ∧
    (req_step .PUT { status := 200, message := none, text := "", payload := "body" } none).1
        ≠ .ok (.json "body") :=
  ⟨rfl, by decide⟩

/-- C9 (amended): for every response with status in [200,300) the error
classifier `handle_errors` is never invoked; the parsed body is returned
unchanged for GET and POST, while PUT and DELETE return the empty string. -/
theorem c9_success_path (m : Method) (resp : Response) (key : Option String)
    (h : 200 ≤ resp.status ∧ resp.status < 300) :
    (req_step m resp key).2 = false ∧
    ((m = .GET ∨ m = .POST) → (req_step m resp key).1 = .ok (.json resp.payload)) ∧
    ((m = .PUT ∨ m = .DELETE) → (req_step m resp key).1 = .ok .emptyStr) := by
  unfold req_step
  rw [if_pos h]
  refine ⟨rfl, ?_, ?_⟩
  · rintro (rfl | rfl) <;> simp
  · rintro (rfl | rfl) <;> simp

/-- Witness for C9: a GET with a 200 response returns the parsed body with
the classifier not invoked. -/
theorem c9_success_path_witness :
    (req_step .GET { status := 200, message := none, text := "", payload := "p" } none).2
        = false ∧
    (req_step .GET { status := 200, message := none, text := "", payload := "p" } none).1
        = .ok (.json "p") := by
  have h := c9_success_path .GET
      { status := 200, message := none, text := "", payload := "p" } none
      (by constructor <;> decide)
  exact ⟨h.1, h.2.1 (Or.inl rfl)⟩

/-- C8 counterexample: `req('clusters')`-style collection calls (used at
`xtremio.py` line 390) supply neither a name nor an index, and the dispatched
request carries no identifier at all, so it is not the case that exactly one
of name/index is set for every request built by `XtremIOClient.req`. -/
theorem c8_counterexample :
    build_request none none = .ok { pathIdx := none, nameParam := none, key := none } ∧
    usesIdentifier { pathIdx := none, nameParam := none, key := none } = false :=
  ⟨rfl, rfl⟩

/-- C8 (amended): a call supplying both a truthy name and a truthy index
raises `VolumeDriverException` before any network call is made (the response
is never consulted); every dispatched request carries at most one of the two
identifiers — the name as a query parameter when the name is truthy,
otherwise the index appended to the URL path when the index is truthy. -/
theorem c8_at_most_one_identifier (name : Option String) (idx : Option Int) :
    (truthyName name = true → truthyIdx idx = true →
      build_request name idx =
          .error (.volumeDriverException "cannot handle both name and index in req") ∧
      ∀ m resp, req_full name idx m resp =
          .error (.volumeDriverException "cannot handle both name and index in req")) ∧
    (∀ br, build_request name idx = .ok br →
      usesBoth br = false ∧
      (truthyName name = true → br.nameParam = name ∧ br.pathIdx = none) ∧
      (truthyName name = false → truthyIdx idx = true →
        br.pathIdx = idx ∧ br.nameParam = none)) := by
  constructor
  · intro hn hi
    have hb : build_request name idx =
        .error (.volumeDriverException "cannot handle both name and index in req") := by
      unfold build_request
      rw [if_pos (by rw [hn, hi]; rfl)]
    refine ⟨hb, fun m resp => ?_⟩
    unfold req_full
    rw [hb]
  · intro br hbr
    unfold build_request at hbr
    by_cases hn : truthyName name = true
    · by_cases hi : truthyIdx idx = true
      · rw [if_pos (by rw [hn, hi]; rfl)] at hbr
        exact absurd hbr (by simp)
      · rw [if_neg (by rw [hn]; simpa using hi), if_pos hn] at hbr
        cases hbr
        refine ⟨?_, fun _ => ⟨rfl, rfl⟩, fun h _ => absurd hn (by rw [h]; simp)⟩
        cases name with
        | none => simp [truthyName] at hn
        | some s => rfl
    · rw [if_neg (by rw [Bool.not_eq_true] at hn; rw [hn]; simp),
          if_neg hn] at hbr
      by_cases hi : truthyIdx idx = true
      · rw [if_pos hi] at hbr
        cases hbr
        refine ⟨?_, fun h => absurd h hn, fun _ _ => ⟨rfl, rfl⟩⟩
        cases idx with
        | none => simp [truthyIdx] at hi
        | some i => rfl
      · rw [if_neg hi] at hbr
        cases hbr
        exact ⟨rfl, fun h => absurd h hn, fun _ h => absurd h hi⟩

/-- Witness for C8: supplying both a nonempty name and a nonzero index makes
the request constructor raise before dispatch, for any response. -/
theorem c8_at_most_one_identifier_witness :
    req_full (some "vol1") (some 3) .GET
        { status := 200, message := none, text := "", payload := "" } =
      .error (.volumeDriverException "cannot handle both name and index in req") :=
  ((c8_at_most_one_identifier (some "vol1") (some 3)).1 (by decide) (by decide)).2
    .GET { status := 200, message := none, text := "", payload := "" }

/-- Deleting a name that is absent from the array is absorbed into success:
the 400 `obj_not_found` answer is classified `NotFound` and caught. -/
theorem delete_volume_absent (st : XmsState) (name : String) (h : name ∉ st.vols) :
    delete_volume st name = (.ok (), st) := by
  unfold delete_volume xms_delete
  rw [if_neg h]
  rfl

/-- After a delete, the name is gone from the array state. -/
theorem delete_volume_removes (st : XmsState) (name : String) :
    name ∉ ((delete_volume st name).2).vols := by
  unfold delete_volume xms_delete
  by_cases h : name ∈ st.vols
  · rw [if_pos h]
    show name ∉ st.vols.filter (fun v => v ≠ name)
    simp
  · rw [if_neg h]
    exact h

/-- `delete_snapshot` has the same body as `delete_volume`. -/
theorem delete_snapshot_eq_delete_volume (st : XmsState) (s : String) :
    delete_snapshot st s = delete_volume st s := rfl

/-- After `unity_delete_lun`, no lun with the identity remains. -/
theorem lunIdExists_filter (st : UnityState) (lunId : Nat) :
    lunIdExists { st with luns := st.luns.filter (fun p => p.2 ≠ lunId) } lunId = false := by
  simp [lunIdExists, List.any_eq_true, List.mem_filter]

/-- C5: delete-or-ignore idempotence.  `XtremIOVolumeDriver.delete_volume`,
`XtremIOVolumeDriver.delete_snapshot` and `UnityClient.delete_lun` absorb the
not-found answer, so the second delete of the same key returns normally with
no exception. -/
theorem c5_delete_or_ignore (st : XmsState) (name : String)
    (ust st1 : UnityState) (lunId : Nat)
    (h : unity_delete_lun ust lunId = .ok st1) :
    (delete_volume (delete_volume st name).2 name).1 = .ok () ∧
    (delete_snapshot (delete_snapshot st name).2 name).1 = .ok () ∧
    unity_delete_lun st1 lunId = .ok st1 := by
  refine ⟨?_, ?_, ?_⟩
  · rw [delete_volume_absent _ _ (delete_volume_removes st name)]
  · rw [delete_snapshot_eq_delete_volume, delete_snapshot_eq_delete_volume,
      delete_volume_absent _ _ (delete_volume_removes st name)]
  · unfold unity_delete_lun lun_delete at h ⊢
    by_cases hex : lunIdExists ust lunId = true
    · rw [if_pos hex] at h
      cases h
      rw [if_neg (by rw [lunIdExists_filter]; simp)]
    · rw [if_neg hex] at h
      cases h
      rw [if_neg hex]

/-- Witness for C5: deleting the volume `v` twice on a one-volume array
raises on neither call. -/
theorem c5_delete_or_ignore_witness :
    (delete_volume (delete_volume ⟨["v"]⟩ "v").2 "v").1 = .ok () ∧
    unity_delete_lun ⟨[], [], 1⟩ 0 = .ok ⟨[], [], 1⟩ :=
  have h := c5_delete_or_ignore ⟨["v"]⟩ "v" ⟨[("l", 0)], [], 1⟩ ⟨[], [], 1⟩ 0 rfl
  ⟨h.1, h.2.2⟩

/-- C4 counterexample: a 400 response whose JSON body has no `message` field
makes `handle_errors` call `None.endswith(...)`, an `AttributeError` — an
unclassified failure outside the closed taxonomy, not the `Unknown` kind the
claim requires for bodies missing a recognized token. -/
theorem c4_counterexample :
    handle_errors { status := 400, message := none, text := "bad", payload := "" } none
        = .pyError "AttributeError" ∧
    inTaxonomy (handle_errors
        { status := 400, message := none, text := "bad", payload := "" } none) = false :=
  ⟨rfl, rfl⟩

/-- C4 (amended): for every failed response, when the status is 400 and the
body carries a message, the vendor token is mapped through the fixed table
(`obj_not_found` → `NotFound`, `vol_obj_name_not_unique` → the duplicate-name
backend error, `already_mapped` → `AlreadyAttached`, `system_is_busy` →
`ArrayBusy`, `too_many_objs` or `too_many_snapshots_per_vol` →
`ResourceLimitExceeded`); any other status, or a message matching no
recognized token, maps to the `Unknown` kind carrying the raw response text;
whenever the body carries a message the classifier produces a member of the
closed taxonomy.  (A 400 body with no message at all instead crashes with
`AttributeError`, see the counterexample.) -/
theorem c4_error_classifier (resp : Response) (key : Option String)
    (_hfail : ¬(200 ≤ resp.status ∧ resp.status < 300)) :
    (resp.status = 400 → resp.message = some OBJ_NOT_FOUND_ERR →
      handle_errors resp key = .notFound) ∧
    (resp.status = 400 → resp.message = some VOL_NOT_UNIQUE_ERR →
      handle_errors resp key =
        .volumeBackendAPIException "Volume by this name already exists") ∧
    (resp.status = 400 → resp.message = some ALREADY_MAPPED_ERR →
      handle_errors resp key = .xtremIOAlreadyMappedError) ∧
    (resp.status = 400 → resp.message = some SYSTEM_BUSY →
      handle_errors resp key = .xtremIOArrayBusy) ∧
    (resp.status = 400 →
      (resp.message = some TOO_MANY_OBJECTS ∨ resp.message = some TOO_MANY_SNAPSHOTS_PER_VOL) →
      handle_errors resp key = .xtremIOSnapshotsLimitExceeded) ∧
    (resp.status ≠ 400 →
      handle_errors resp key =
        .volumeBackendAPIException ("Bad response from XMS, " ++ resp.text)) ∧
    (∀ m, resp.status = 400 → resp.message = some m →
      pyEndsWith m OBJ_NOT_FOUND_ERR = false → m ≠ VOL_NOT_UNIQUE_ERR →
      m ≠ VOL_OBJ_NOT_FOUND_ERR → pyIn ALREADY_MAPPED_ERR m = false →
      m ≠ SYSTEM_BUSY → m ≠ TOO_MANY_OBJECTS → m ≠ TOO_MANY_SNAPSHOTS_PER_VOL →
      handle_errors resp key =
        .volumeBackendAPIException ("Bad response from XMS, " ++ resp.text)) ∧
    (∀ m, resp.message = some m → inTaxonomy (handle_errors resp key) = true) := by
  refine ⟨?_, ?_, ?_, ?_, ?_, ?_, ?_, ?_⟩
  · intro hs hm
    unfold handle_errors
    rw [if_pos hs, hm]
    rfl
  · intro hs hm
    unfold handle_errors
    rw [if_pos hs, hm]
    rfl
  · intro hs hm
    unfold handle_errors
    rw [if_pos hs, hm]
    rfl
  · intro hs hm
    unfold handle_errors
    rw [if_pos hs, hm]
    rfl
  · rintro hs (hm | hm) <;> (unfold handle_errors; rw [if_pos hs, hm]) <;> rfl
  · intro hs
    unfold handle_errors
    rw [if_neg hs]
  · intro m hs hm h1 h2 h3 h4 h5 h6 h7
    unfold handle_errors
    rw [if_pos hs, hm]
    show classify_message m key resp.text = _
    unfold classify_message
    simp [h1, h2, h3, h4, h5, h6, h7]
  · intro m hm
    by_cases hs : resp.status = 400
    · unfold handle_errors
      rw [if_pos hs, hm]
      show inTaxonomy (classify_message m key resp.text) = true
      unfold classify_message
      split_ifs <;> rfl
    · unfold handle_errors
      rw [if_neg hs]
      rfl

/-- Witness for C4: a 400 response with the `system_is_busy` token classifies
as the busy error. -/
theorem c4_error_classifier_witness :
    handle_errors { status := 400, message := some SYSTEM_BUSY, text := "t", payload := "" } none
        = .xtremIOArrayBusy :=
  (c4_error_classifier
      { status := 400, message := some SYSTEM_BUSY, text := "t", payload := "" } none
      (by decide)).2.2.2.1 rfl rfl

/-- A second `UnityClient.create_lun` under a name that already resolves to a
lun returns the existing lun unchanged. -/
theorem create_lun_found (st : UnityState) (name : String) (i : Nat)
    (h : assocFind name st.luns = some i) :
    unity_create_lun st name = .ok (st, i) := by
  unfold unity_create_lun pool_create_lun system_get_lun_by_name
  rw [h]

/-- After a successful `UnityClient.create_lun`, the name resolves to the
returned lun identity. -/
theorem create_lun_postcond (st : UnityState) (name : String) (st1 : UnityState) (i : Nat)
    (h : unity_create_lun st name = .ok (st1, i)) :
    assocFind name st1.luns = some i := by
  unfold unity_create_lun pool_create_lun system_get_lun_by_name at h
  cases hfind : assocFind name st.luns with
  | none =>
    rw [hfind] at h
    cases h
    simp [assocFind]
  | some v =>
    rw [hfind] at h
    cases h
    exact hfind

/-- A second `UnityClient.create_snap` under a name that already resolves to
a snapshot returns the existing snapshot unchanged. -/
theorem create_snap_found (st : UnityState) (src : Nat) (name : String) (j : Nat)
    (hlun : lunIdExists st src = true) (h : assocFind name st.snaps = some j) :
    unity_create_snap st src name = .ok (st, some j) := by
  unfold unity_create_snap lun_create_snap unity_get_snap
  rw [if_pos hlun, h]

/-- After a successful `UnityClient.create_snap`, the name resolves to the
returned snapshot identity and the source lun still exists. -/
theorem create_snap_postcond (st : UnityState) (src : Nat) (name : String)
    (st1 : UnityState) (j : Nat)
    (h : unity_create_snap st src name = .ok (st1, some j)) :
    assocFind name st1.snaps = some j ∧ lunIdExists st1 src = true := by
  unfold unity_create_snap lun_create_snap unity_get_snap at h
  by_cases hlun : lunIdExists st src = true
  · rw [if_pos hlun] at h
    cases hfind : assocFind name st.snaps with
    | none =>
      rw [hfind] at h
      cases h
      exact ⟨by simp [assocFind], hlun⟩
    | some v =>
      rw [hfind] at h
      cases h
      exact ⟨hfind, hlun⟩
  · rw [if_neg hlun] at h
    exact (Except.noConfusion h)

/-- C3 counterexample: `XtremIOVolumeDriver.create_volume` has no fallback on
the duplicate-name answer: the `vol_obj_name_not_unique` response surfaces to
the caller as `VolumeBackendAPIException`, so the duplicate-name error is not
absorbed for every resource-creating operation. -/
theorem c3_counterexample :
    create_volume none
        { status := 400, message := some VOL_NOT_UNIQUE_ERR, text := "", payload := "" }
        { status := 200, message := none, text := "", payload := "" } =
      .error (.volumeBackendAPIException "Volume by this name already exists") := rfl

/-- C3 (amended): create-or-fetch idempotence holds for `UnityClient.create_lun`
and `UnityClient.create_snap` — a repeated create with the same name returns
the same resource identity with no duplicate-name error surfacing — but not
for `XtremIOVolumeDriver.create_volume`, which propagates the backend
duplicate-name error to the caller. -/
theorem c3_create_or_fetch (st st1 : UnityState) (name : String) (i : Nat)
    (sst sst1 : UnityState) (src : Nat) (sname : String) (j : Nat)
    (hl : unity_create_lun st name = .ok (st1, i))
    (hs : unity_create_snap sst src sname = .ok (sst1, some j)) :
    unity_create_lun st1 name = .ok (st1, i) ∧
    unity_create_snap sst1 src sname = .ok (sst1, some j) ∧
    (∀ (resp cgResp : Response) (cgId : Option String),
      resp.status = 400 → resp.message = some VOL_NOT_UNIQUE_ERR →
      create_volume cgId resp cgResp =
        .error (.volumeBackendAPIException "Volume by this name already exists")) := by
  refine ⟨create_lun_found st1 name i (create_lun_postcond st name st1 i hl), ?_, ?_⟩
  · obtain ⟨hfind, hlun⟩ := create_snap_postcond sst src sname sst1 j hs
    exact create_snap_found sst1 src sname j hlun hfind
  · rintro ⟨s, msg, t, p⟩ cgResp cgId hs' hm'
    simp only at hs' hm'
    subst hs'
    subst hm'
    rfl

/-- Witness for C3: creating the lun `v` and the snapshot `s` twice each on a
small Unity array returns the same identities both times. -/
theorem c3_create_or_fetch_witness :
    unity_create_lun ⟨[("v", 0)], [], 1⟩ "v" = .ok (⟨[("v", 0)], [], 1⟩, 0) ∧
    unity_create_snap ⟨[("l", 0)], [("s", 1)], 2⟩ 0 "s" =
      .ok (⟨[("l", 0)], [("s", 1)], 2⟩, some 1) :=
  have h := c3_create_or_fetch ⟨[], [], 0⟩ ⟨[("v", 0)], [], 1⟩ "v" 0
    ⟨[("l", 0)], [], 1⟩ ⟨[("l", 0)], [("s", 1)], 2⟩ 0 "s" 1 rfl rfl
  ⟨h.1, h.2.1⟩

/-- C2 counterexample: a rename failure that is not
`VolumeBackendAPIException` — here the 400 `obj_not_found` answer, raised as
`exception.NotFound` — propagates with no compensating DELETE issued, so the
compensation does not cover every rename failure. -/
theorem c2_counterexample :
    create_snapshot4 "d"
        { status := 200, message := none, text := "", payload := "r" }
        { status := 400, message := some OBJ_NOT_FOUND_ERR, text := "", payload := "" }
        { status := 200, message := none, text := "", payload := "" } =
      (.error .notFound, [.postSnap "d", .putRename "d"]) ∧
    SnapAction.deleteSnap ∉ [SnapAction.postSnap "d", SnapAction.putRename "d"] :=
  ⟨rfl, by decide⟩

/-- C2 (amended): in `XtremIOClient4.create_snapshot`, after a successful
create of the anonymous snapshot set, a successful rename ends the call with
the rename request issued under the requested name; a rename failing with
`VolumeBackendAPIException` triggers the compensating DELETE of the created
set before that error propagates; any other rename failure propagates with no
compensating DELETE. -/
theorem c2_snapshot_compensation (dest : String) (postResp putResp delResp : Response)
    (hpost : ∃ v, req_result .POST postResp = .ok v) :
    (∀ w, req_result .PUT putResp = .ok w →
      create_snapshot4 dest postResp putResp delResp =
        (.ok (), [.postSnap dest, .putRename dest])) ∧
    (∀ msg w, req_result .PUT putResp = .error (.volumeBackendAPIException msg) →
      req_result .DELETE delResp = .ok w →
      create_snapshot4 dest postResp putResp delResp =
        (.error (.volumeBackendAPIException msg),
         [.postSnap dest, .putRename dest, .deleteSnap])) ∧
    (∀ e, req_result .PUT putResp = .error e → e.isVolumeBackendAPIException = false →
      create_snapshot4 dest postResp putResp delResp =
        (.error e, [.postSnap dest, .putRename dest])) := by
  obtain ⟨v, hv⟩ := hpost
  unfold create_snapshot4
  rw [hv]
  refine ⟨?_, ?_, ?_⟩
  · intro w hw
    rw [hw]
  · intro msg w hput hdel
    rw [hput, hdel]
    rfl
  · intro e hput he
    rw [hput]
    simp [he]

/-- Witness for C2: a duplicate-name rename failure triggers the compensating
DELETE and then propagates. -/
theorem c2_snapshot_compensation_witness :
    create_snapshot4 "d"
        { status := 200, message := none, text := "", payload := "r" }
        { status := 400, message := some VOL_NOT_UNIQUE_ERR, text := "", payload := "" }
        { status := 200, message := none, text := "", payload := "" } =
      (.error (.volumeBackendAPIException "Volume by this name already exists"),
       [.postSnap "d", .putRename "d", .deleteSnap]) :=
  (c2_snapshot_compensation "d"
      { status := 200, message := none, text := "", payload := "r" }
      { status := 400, message := some VOL_NOT_UNIQUE_ERR, text := "", payload := "" }
      { status := 200, message := none, text := "", payload := "" }
      ⟨.json "r", rfl⟩).2.1 "Volume by this name already exists" .emptyStr rfl rfl

/-- Exhaustion: when every supplied attempt outcome is busy, the executor
issues exactly `n` attempts, sleeps between consecutive attempts, and
surfaces the busy error. -/
theorem retry_exec_all_busy (os : List (Except Err RetVal)) :
    ∀ (n iv : Nat), 1 ≤ n → n ≤ os.length →
    (∀ o ∈ os, o = .error .xtremIOArrayBusy) →
    retry_exec iv os n = (.error .xtremIOArrayBusy, n, (n - 1) * iv) := by
  induction os with
  | nil =>
    intro n iv h1 h2 _
    simp at h2
    omega
  | cons o rest ih =>
    intro n iv h1 h2 hb
    rw [hb o (List.mem_cons_self o rest)]
    rcases n with _ | n
    · omega
    rcases n with _ | k
    · show (Except.error Err.xtremIOArrayBusy, 1, 0)
          = (Except.error Err.xtremIOArrayBusy, 1, (1 - 1) * iv)
      simp
    · have ihh := ih (k + 1) iv (by omega) (by simp at h2 ⊢; omega)
        (fun x hx => hb x (List.mem_cons_of_mem o hx))
      show ((retry_exec iv rest (k + 1)).1, (retry_exec iv rest (k + 1)).2.1 + 1,
            (retry_exec iv rest (k + 1)).2.2 + iv)
          = (Except.error Err.xtremIOArrayBusy, k + 2, (k + 2 - 1) * iv)
      rw [ihh]
      simp [Nat.succ_mul]

/-- First-occurrence propagation: a first outcome carrying any error other
than busy ends the call at once, with one attempt and no sleep. -/
theorem retry_exec_first_error (iv n : Nat) (os : List (Except Err RetVal))
    (e : Err) (hne : e ≠ .xtremIOArrayBusy) :
    retry_exec iv (.error e :: os) n = (.error e, 1, 0) := by
  cases e <;> first | exact absurd rfl hne | rfl

/-- Recovery: busy outcomes followed by a success return the success, with
one attempt per busy outcome plus the final one. -/
theorem retry_exec_busy_prefix (pre : List (Except Err RetVal)) :
    ∀ (n iv : Nat) (os : List (Except Err RetVal)) (v : RetVal),
    (∀ x ∈ pre, x = .error .xtremIOArrayBusy) →
    pre.length < n →
    retry_exec iv (pre ++ .ok v :: os) n = (.ok v, pre.length + 1, pre.length * iv) := by
  induction pre with
  | nil =>
    intro n iv os v _ hn
    show (Except.ok v, 1, 0) = (Except.ok v, [].length + 1, [].length * iv)
    simp
  | cons x pre ih =>
    intro n iv os v hb hn
    rw [hb x (List.mem_cons_self x pre)]
    rcases n with _ | n
    · omega
    rcases n with _ | k
    · simp at hn
    · have ihh := ih (k + 1) iv os v (fun y hy => hb y (List.mem_cons_of_mem x hy))
        (by simp at hn ⊢; omega)
      show ((retry_exec iv (pre ++ .ok v :: os) (k + 1)).1,
            (retry_exec iv (pre ++ .ok v :: os) (k + 1)).2.1 + 1,
            (retry_exec iv (pre ++ .ok v :: os) (k + 1)).2.2 + iv)
          = (Except.ok v, (x :: pre).length + 1, (x :: pre).length * iv)
      rw [ihh]
      simp [Nat.succ_mul]

/-- C1 (spec-modelled executor around the source classifier): the configured
defaults are 5 attempts and interval 5; a run of busy-classified responses is
retried, each retry preceded by one fixed-interval sleep; when all attempts
classify busy the busy error surfaces terminally after exactly the maximum
attempt count; any other error kind propagates on its first occurrence with
no retry; a success after busy answers is returned. -/
theorem c1_retry_policy :
    (xtremio_array_busy_retry_count = 5 ∧ xtremio_array_busy_retry_interval = 5) ∧
    (∀ (iv n : Nat) (rs : List Response) (m : Method),
      1 ≤ n → n ≤ rs.length →
      (∀ r ∈ rs, req_result m r = .error .xtremIOArrayBusy) →
      retry_exec iv (rs.map (req_result m)) n = (.error .xtremIOArrayBusy, n, (n - 1) * iv)) ∧
    (∀ (iv n : Nat) (r : Response) (rs : List Response) (m : Method) (e : Err),
      req_result m r = .error e → e ≠ .xtremIOArrayBusy →
      retry_exec iv ((r :: rs).map (req_result m)) n = (.error e, 1, 0)) ∧
    (∀ (iv n : Nat) (pre : List Response) (r : Response) (rs : List Response)
      (m : Method) (v : RetVal),
      (∀ x ∈ pre, req_result m x = .error .xtremIOArrayBusy) →
      pre.length < n → req_result m r = .ok v →
      retry_exec iv ((pre ++ r :: rs).map (req_result m)) n =
        (.ok v, pre.length + 1, pre.length * iv)) := by
  refine ⟨⟨rfl, rfl⟩, ?_, ?_, ?_⟩
  · intro iv n rs m h1 h2 hb
    refine retry_exec_all_busy (rs.map (req_result m)) n iv h1 (by simpa using h2) ?_
    intro o ho
    obtain ⟨r, hr, rfl⟩ := List.mem_map.mp ho
    exact hb r hr
  · intro iv n r rs m e hr hne
    rw [List.map_cons, hr]
    exact retry_exec_first_error iv n (rs.map (req_result m)) e hne
  · intro iv n pre r rs m v hb hn hok
    rw [List.map_append, List.map_cons, hok]
    have h := retry_exec_busy_prefix (pre.map (req_result m)) n iv (rs.map (req_result m)) v
      (fun o ho => by
        obtain ⟨x, hx, rfl⟩ := List.mem_map.mp ho
        exact hb x hx)
      (by simpa using hn)
    simpa using h

/-- Witness for C1: five busy answers under the default configuration surface
the busy error after 5 attempts and 4 sleeps of 5 time-units. -/
theorem c1_retry_policy_witness :
    retry_exec 5
        ((List.replicate 5
          { status := 400, message := some SYSTEM_BUSY, text := "", payload := "" }).map
            (req_result .GET)) 5 = (.error .xtremIOArrayBusy, 5, 20) :=
  c1_retry_policy.2.1 5 5
    (List.replicate 5 { status := 400, message := some SYSTEM_BUSY, text := "", payload := "" })
    .GET (by omega) (by simp)
    (fun r hr => by rw [List.eq_of_mem_replicate hr]; rfl)

/-- C7: the firmware probe parses `sys-sw-version` once and the parsed value
alone selects the client variant for the rest of the session: below `[3,0,0]`
(Python list order) the setup check raises; a major version of 4 or more
selects `XtremIOClient4`; any other accepted version keeps the
`XtremIOClient3` chosen at construction; and no subsequent driver operation
changes the selected variant. -/
theorem c7_version_dispatch (text : String) (ver : List Nat)
    (hparse : parse_version text = some ver) :
    (pyListLt ver MIN_XMS_VERSION = true →
      check_for_setup_error text = .error (.volumeBackendAPIException "Invalid XtremIO version")) ∧
    (pyListLt ver MIN_XMS_VERSION = false → 4 ≤ ver.headD 0 →
      check_for_setup_error text = .ok .client4) ∧
    (pyListLt ver MIN_XMS_VERSION = false → ver.headD 0 < 4 →
      check_for_setup_error text = .ok .client3) ∧
    (∀ (k : ClientKind) (ops : List DriverOp), run_session k ops = k) := by
  have hc : check_for_setup_error text = select_client ver := by
    unfold check_for_setup_error
    rw [hparse]
  refine ⟨?_, ?_, ?_, ?_⟩
  · intro hlt
    rw [hc]
    unfold select_client
    rw [if_pos hlt]
  · intro hlt h4
    rw [hc]
    unfold select_client
    rw [if_neg (by simp [hlt]), if_pos h4]
  · intro hlt h4
    rw [hc]
    unfold select_client
    rw [if_neg (by simp [hlt]), if_neg (by omega)]
  · intro k ops
    induction ops with
    | nil => rfl
    | cons o t ih => exact ih

/-- Witness for C7: the probe on version text `4.0.2-80` selects
`XtremIOClient4`. -/
theorem c7_version_dispatch_witness :
    check_for_setup_error "4.0.2-80" = .ok .client4 :=
  (c7_version_dispatch "4.0.2-80" [4, 0, 2] (by decide)).2.1 rfl (by decide)

/-- The fold in `pyMin` is bounded by its initial value. -/
theorem foldl_min_le_init (xs : List Nat) : ∀ x : Nat, xs.foldl min x ≤ x := by
  induction xs with
  | nil => intro x; exact Nat.le_refl x
  | cons c cs ih =>
    intro x
    exact Nat.le_trans (ih (min x c)) (min_le_left x c)

/-- The fold in `pyMin` is bounded by every list element. -/
theorem foldl_min_le_mem (xs : List Nat) :
    ∀ (x y : Nat), y ∈ xs → xs.foldl min x ≤ y := by
  induction xs with
  | nil =>
    intro x y hy
    cases hy
  | cons c cs ih =>
    intro x y hy
    rcases List.mem_cons.mp hy with rfl | hy
    · exact Nat.le_trans (foldl_min_le_init cs (min x y)) (min_le_right x y)
    · exact ih (min x c) y hy

/-- The fold in `pyMin` is the initial value or a list element. -/
theorem foldl_min_mem (xs : List Nat) :
    ∀ x : Nat, xs.foldl min x = x ∨ xs.foldl min x ∈ xs := by
  induction xs with
  | nil => intro x; left; rfl
  | cons c cs ih =>
    intro x
    rw [List.foldl_cons]
    rcases ih (min x c) with h | h
    · rw [h]
      rcases Nat.le_total x c with hxc | hcx
      · left
        omega
      · right
        rw [show min x c = c by omega]
        exact List.mem_cons_self c cs
    · right
      exact List.mem_cons_of_mem c h

/-- Python `min` over a nonempty collection is a member that bounds every
member from below. -/
theorem pyMin_spec (l : List Nat) (m : Nat) (h : pyMin l = some m) :
    m ∈ l ∧ ∀ y ∈ l, m ≤ y := by
  cases l with
  | nil => cases h
  | cons x xs =>
    have hm : xs.foldl min x = m := by
      simpa [pyMin] using h
    constructor
    · rcases foldl_min_mem xs x with h0 | h0
      · rw [← hm, h0]
        exact List.mem_cons_self x xs
      · rw [← hm]
        exact List.mem_cons_of_mem x h0
    · intro y hy
      rcases List.mem_cons.mp hy with rfl | hy
      · rw [← hm]
        exact foldl_min_le_init xs y
      · rw [← hm]
        exact foldl_min_le_mem xs x y hy

/-- Pigeonhole: among `0, ..., len(uniq)` at least one number is missing from
the duplicate-free list `uniq`. -/
theorem filter_range_ne_nil (uniq : List Nat) (hnd : uniq.Nodup) :
    (List.range (uniq.length + 1)).filter (fun n => decide (n ∉ uniq)) ≠ [] := by
  intro hempty
  have hall : ∀ n ∈ List.range (uniq.length + 1), n ∈ uniq := by
    intro n hn
    by_contra hnotin
    have hmem : n ∈ (List.range (uniq.length + 1)).filter (fun n => decide (n ∉ uniq)) :=
      List.mem_filter.mpr ⟨hn, by simpa using hnotin⟩
    rw [hempty] at hmem
    cases hmem
  have hsub : Finset.range (uniq.length + 1) ⊆ uniq.toFinset := by
    intro n hn
    rw [List.mem_toFinset]
    exact hall n (List.mem_range.mpr (Finset.mem_range.mp hn))
  have hcard := Finset.card_le_card hsub
  rw [Finset.card_range, List.toFinset_card_of_nodup hnd] at hcard
  omega

/-- C6: `XtremIOFCDriver._get_free_lun` returns the lowest unused positive
lun number: it is never 0, it is not among the lun numbers already mapped to
any of the given initiator groups, and every strictly smaller positive
integer is among those mapped lun numbers. -/
theorem c6_get_free_lun (igLuns : List (List Nat)) :
    _get_free_lun igLuns ≠ 0 ∧
    _get_free_lun igLuns ∉ gatherLuns igLuns ∧
    (∀ p, 0 < p → p < _get_free_lun igLuns → p ∈ gatherLuns igLuns) := by
  have hdef : _get_free_lun igLuns =
      (pyMin ((List.range ((gatherLuns igLuns ++ [0]).dedup.length + 1)).filter
        (fun n => decide (n ∉ (gatherLuns igLuns ++ [0]).dedup)))).getD 0 := rfl
  rw [hdef]
  generalize gatherLuns igLuns = luns
  have hnd : (luns ++ [0]).dedup.Nodup := List.nodup_dedup (luns ++ [0])
  have hne := filter_range_ne_nil ((luns ++ [0]).dedup) hnd
  cases hfl : (List.range ((luns ++ [0]).dedup.length + 1)).filter
      (fun n => decide (n ∉ (luns ++ [0]).dedup)) with
  | nil => exact absurd hfl hne
  | cons x xs =>
    have hspec := pyMin_spec (x :: xs) (xs.foldl min x) rfl
    have hgd : (pyMin (x :: xs)).getD 0 = xs.foldl min x := rfl
    rw [hgd]
    have hmem : xs.foldl min x ∈
        (List.range ((luns ++ [0]).dedup.length + 1)).filter
          (fun n => decide (n ∉ (luns ++ [0]).dedup)) := by
      rw [hfl]
      exact hspec.1
    obtain ⟨hrange, hnotin⟩ := List.mem_filter.mp hmem
    have hnotin : xs.foldl min x ∉ (luns ++ [0]).dedup := by simpa using hnotin
    have hzero : (0 : Nat) ∈ (luns ++ [0]).dedup := by
      rw [List.mem_dedup]
      exact List.mem_append_right luns (List.mem_singleton.mpr rfl)
    refine ⟨?_, ?_, ?_⟩
    · intro h0
      rw [h0] at hnotin
      exact hnotin hzero
    · intro hl
      exact hnotin (List.mem_dedup.mpr (List.mem_append_left [0] hl))
    · intro p hp hplt
      by_cases hpin : p ∈ (luns ++ [0]).dedup
      · rcases List.mem_append.mp (List.mem_dedup.mp hpin) with h | h
        · exact h
        · rw [List.mem_singleton.mp h] at hp
          exact absurd hp (Nat.lt_irrefl 0)
      · exfalso
        have hpfl : p ∈ (List.range ((luns ++ [0]).dedup.length + 1)).filter
            (fun n => decide (n ∉ (luns ++ [0]).dedup)) := by
          refine List.mem_filter.mpr ⟨List.mem_range.mpr ?_, by simpa using hpin⟩
          have := List.mem_range.mp hrange
          omega
        rw [hfl] at hpfl
        exact absurd hplt (Nat.not_lt.mpr (hspec.2 p hpfl))

/-- Witness for C6: with lun-maps 1, 2 on one initiator group and 0, 4 on
another, the allocator returns 3, and 2 is indeed among the mapped numbers. -/
theorem c6_get_free_lun_witness :
    _get_free_lun [[1, 2], [0, 4]] ≠ 0 ∧ (2 : Nat) ∈ gatherLuns [[1, 2], [0, 4]] :=
  ⟨(c6_get_free_lun [[1, 2], [0, 4]]).1,
   (c6_get_free_lun [[1, 2], [0, 4]]).2.2 2 (by decide) (by decide)⟩

end DellEmc
